import Mathlib

/-!
# Shallow embedding of the AImgProc scripting-to-GPU bridge (src/src/compute.rs)

This file embeds the compute core of the AImgProc repository: the buffer
registry (`HashMap<String, Buff>` shared behind `Rc<RefCell<..>>`), the
scripting-visible references (`BufferRhaiRef`, `ImageRhaiRef`), the kernel
argument resolver (`CScope::call_kernel`), buffer creation
(`create_int_buffer`, `create_float_buffer`, `create_dynimage`,
`create_image`), frame-size handling (`CScope::set_image_size`), and the
host/device image transfers (`CScope::set_input`, `CScope::get_output`).

Modelling conventions:
* The registry is an association list with overwrite-on-insert semantics,
  matching the observable behaviour of `HashMap::insert` / lookup.
* Device buffers are represented by their element lists.  Freshly allocated
  device memory is modelled as zero bytes; no theorem below depends on the
  initial contents of an allocation, only on its length.
* Rust `panic!` / `.unwrap()` / `.expect(..)` aborts are modelled as
  `Except.error` with the formatted panic message.
* `f64` payloads carried by rhai `Dynamic` values are never computed with in
  the source (they are only moved between host and device), so a float value
  is represented by its 64-bit pattern as an `Int`; likewise every other
  numeric scalar carries its payload as an `Int`.  A rhai `Dynamic` holds
  exactly one concrete type, so the chain of `arg.is::<T>()` tests in
  `call_kernel` is modelled by a tag.
-/

/-- The numeric scalar types accepted by `call_kernel`
    (`add_args!(i8, u8, i16, u16, i32, u32, i64, u64, f32, f64, isize, usize)`,
    compute.rs lines 263-265). -/
inductive NumTy where
  | i8 | u8 | i16 | u16 | i32 | u32 | i64 | u64 | f32 | f64 | isz | usz
deriving DecidableEq, Repr

/-- `BufferRhaiRef` (compute.rs lines 190-194): a scripting-visible reference
    to a scalar buffer: the registry name plus the element count cached at
    creation time. -/
structure BufferRhaiRef where
  name : String
  size : Nat
deriving DecidableEq, Repr

/-- `ImageRhaiRef` (compute.rs lines 207-212): a scripting-visible reference
    to an image buffer: the registry name plus width and height cached at
    creation time. -/
structure ImageRhaiRef where
  name : String
  width : Nat
  height : Nat
deriving DecidableEq, Repr

/-- `BufferRhaiRef::len` (compute.rs lines 200-202): returns the cached size
    field; it takes no registry and performs no lookup. -/
def BufferRhaiRef.len (r : BufferRhaiRef) : Nat := r.size

/-- `ImageRhaiRef::width` (compute.rs lines 217-219): returns the cached
    width field; no registry lookup. -/
def ImageRhaiRef.widthQ (r : ImageRhaiRef) : Nat := r.width

/-- `ImageRhaiRef::height` (compute.rs lines 222-224): returns the cached
    height field; no registry lookup. -/
def ImageRhaiRef.heightQ (r : ImageRhaiRef) : Nat := r.height

/-- A rhai `Dynamic` argument passed to `call_kernel`.  `other` stands for
    any dynamic value that is neither a supported numeric scalar nor one of
    the two reference types (e.g. a rhai string, array or vector literal);
    its tag records which concrete type it held. -/
inductive Dyn where
  | num (ty : NumTy) (v : Int)
  | bufRef (r : BufferRhaiRef)
  | imgRef (r : ImageRhaiRef)
  | other (tag : String)
deriving DecidableEq, Repr

/-- `enum Buff` (compute.rs lines 181-187): the tagged registry entry.
    `IntBuffer`/`FloatBuffer` are device arrays of `i64`/`f64`;
    `DynImage` is a byte array whose shape is the registry's current frame
    size; `Image` is a byte array with width/height fixed at creation. -/
inductive Buff where
  | intBuffer (data : List Int)
  | floatBuffer (data : List Int)
  | dynImage (data : List Nat)
  | image (data : List Nat) (width : Nat) (height : Nat)
deriving DecidableEq, Repr

/-- Whether a registry entry is the `DynImage` variant. -/
def Buff.isDynImage : Buff → Bool
  | .dynImage _ => true
  | _ => false

/-- The registry: name-keyed store of typed buffers
    (`HashMap<String, Buff>`), modelled as an association list. -/
def Registry := List (String × Buff)
deriving DecidableEq

/-- `HashMap::insert`: overwrite the entry under `n` or append a new one. -/
def insertB (r : Registry) (n : String) (b : Buff) : Registry :=
  match r with
  | [] => [(n, b)]
  | (m, c) :: t => if m = n then (n, b) :: t else (m, c) :: insertB t n b

/-- `HashMap` lookup by name. -/
def lookupB (r : Registry) (n : String) : Option Buff :=
  match r with
  | [] => none
  | (m, c) :: t => if m = n then some c else lookupB t n

/-- `struct CScope` (compute.rs lines 170-175): the shared registry plus the
    current frame size `dynimg_size`.  The `ProQue` handle carries no
    observable state relevant to the claims and is omitted. -/
structure CScope where
  buffers : Registry
  dynimgSize : Nat × Nat
deriving DecidableEq

/-- `CScope::set_image_size` (compute.rs lines 329-331): the body is exactly
    `self.dynimg_size = size;` — it updates the recorded frame size and
    touches no buffer. -/
def setImageSize (s : CScope) (size : Nat × Nat) : CScope :=
  { s with dynimgSize := size }

/-- The registry state built by `CInstance::init` (compute.rs lines 79-103):
    a fresh map holding `DynImage` buffers of `size.0 * size.1 * 3` bytes
    under "input" and "output", then `CScope::init` (frame size `(0,0)`)
    followed by `set_image_size(size)`. -/
def initScope (w h : Nat) : CScope :=
  setImageSize
    { buffers :=
        insertB (insertB [] "input" (.dynImage (List.replicate (w * h * 3) 0)))
          "output" (.dynImage (List.replicate (w * h * 3) 0)),
      dynimgSize := (0, 0) }
    (w, h)

/-- One concrete argument bound to the kernel by `call_kernel`:
    a numeric scalar bound with its exact width (`ker.arg(arg.cast::<T>())`),
    a device buffer (`ker.arg(b.clone())`), a `usize` scalar (the cached
    width/height of a fixed image), or a `u32` scalar (the trailing frame
    dimensions). -/
inductive KArg where
  | num (ty : NumTy) (v : Int)
  | buf (b : Buff)
  | uszArg (n : Nat)
  | u32Arg (n : Nat)
deriving DecidableEq, Repr

/-- The per-argument step of `CScope::call_kernel` (compute.rs lines
    243-306): numeric scalars bind as-is; a `BufferRhaiRef` resolves by name
    and must be `IntBuffer` or `FloatBuffer`, else
    `panic!("There is no buffer named {}")`; an `ImageRhaiRef` resolves by
    name, an `Image` entry binds buffer + cached width + cached height, a
    `DynImage` entry binds only the buffer, else
    `panic!("There is no image named {}")`.  A value matching no case falls
    through the loop body and binds nothing. -/
def resolveArg (s : CScope) (a : Dyn) : Except String (List KArg) :=
  match a with
  | .num ty v => .ok [.num ty v]
  | .bufRef r =>
      match lookupB s.buffers r.name with
      | none => .error ("There is no buffer named " ++ r.name)
      | some (.intBuffer d) => .ok [.buf (.intBuffer d)]
      | some (.floatBuffer d) => .ok [.buf (.floatBuffer d)]
      | some _ => .error ("There is no buffer named " ++ r.name)
  | .imgRef r =>
      match lookupB s.buffers r.name with
      | none => .error ("There is no image named " ++ r.name)
      | some (.image d w h) => .ok [.buf (.image d w h), .uszArg r.width, .uszArg r.height]
      | some (.dynImage d) => .ok [.buf (.dynImage d)]
      | some _ => .error ("There is no image named " ++ r.name)
  | .other _ => .ok []

/-- The argument loop of `call_kernel`: arguments are resolved strictly left
    to right, each contributing its bound kernel arguments in order. -/
def callKernelArgs (s : CScope) : List Dyn → Except String (List KArg)
  | [] => .ok []
  | a :: rest => do
      let ks ← resolveArg s a
      let tail ← callKernelArgs s rest
      pure (ks ++ tail)

/-- `CScope::call_kernel` (compute.rs lines 240-317): resolve every script
    argument, then append the current frame width and height as `u32`
    (`ker.arg(self.dynimg_size.0 as u32).arg(self.dynimg_size.1 as u32)`),
    and enqueue.  The method takes `&mut self` but never writes the registry,
    so the returned scope is the input scope. -/
def callKernel (s : CScope) (args : List Dyn) : Except String (List KArg × CScope) := do
  let ks ← callKernelArgs s args
  pure (ks ++ [.u32Arg (s.dynimgSize.1 % 2 ^ 32), .u32Arg (s.dynimgSize.2 % 2 ^ 32)], s)

/-- `d.cast::<i64>()` on a rhai `Dynamic`: succeeds exactly when the dynamic
    value holds an `i64`, otherwise the Rust call panics. -/
def castI64 : Dyn → Option Int
  | .num .i64 v => some v
  | _ => none

/-- `d.cast::<f64>()` on a rhai `Dynamic`. -/
def castF64 : Dyn → Option Int
  | .num .f64 v => some v
  | _ => none

/-- The cast loop of `create_int_buffer` (compute.rs lines 377-380). -/
def castAllI64 : List Dyn → Option (List Int)
  | [] => some []
  | d :: rest =>
      match castI64 d, castAllI64 rest with
      | some v, some vs => some (v :: vs)
      | _, _ => none

/-- The cast loop of `create_float_buffer` (compute.rs lines 397-400). -/
def castAllF64 : List Dyn → Option (List Int)
  | [] => some []
  | d :: rest =>
      match castF64 d, castAllF64 rest with
      | some v, some vs => some (v :: vs)
      | _, _ => none

/-- `CScope::create_int_buffer` (compute.rs lines 376-393): cast every raw
    value to `i64` (panic on failure), allocate a device array of that
    length, upload the values, insert under `name` (overwriting), and return
    a `BufferRhaiRef` caching the length. -/
def createIntBuffer (s : CScope) (name : String) (rawData : List Dyn) :
    Except String (CScope × BufferRhaiRef) :=
  match castAllI64 rawData with
  | none => .error "cast to i64 failed"
  | some data =>
      .ok ({ s with buffers := insertB s.buffers name (.intBuffer data) },
        { name := name, size := data.length })

/-- `CScope::create_float_buffer` (compute.rs lines 396-414): as
    `create_int_buffer` but for `f64` values. -/
def createFloatBuffer (s : CScope) (name : String) (rawData : List Dyn) :
    Except String (CScope × BufferRhaiRef) :=
  match castAllF64 rawData with
  | none => .error "cast to f64 failed"
  | some data =>
      .ok ({ s with buffers := insertB s.buffers name (.floatBuffer data) },
        { name := name, size := data.length })

/-- `CScope::create_dynimage` (compute.rs lines 417-425): allocate a byte
    buffer of `dynimg_size.0 * dynimg_size.1 * 3` and insert it under `name`
    as a `DynImage`. -/
def createDynimage (s : CScope) (name : String) : CScope :=
  { s with
    buffers :=
      insertB s.buffers name
        (.dynImage (List.replicate (s.dynimgSize.1 * s.dynimgSize.2 * 3) 0)) }

/-- `CScope::create_image` (compute.rs lines 428-440): allocate a byte
    buffer of `width * height * 3`, insert it under `name` as an `Image`
    with fixed dimensions, and return an `ImageRhaiRef` caching them. -/
def createImage (s : CScope) (name : String) (width height : Nat) :
    CScope × ImageRhaiRef :=
  ({ s with buffers := insertB s.buffers name (.image (List.replicate (width * height * 3) 0) width height) },
    { name := name, width := width, height := height })

/-- `CScope::set_input` (compute.rs lines 335-339): if the entry under
    "input" is a `DynImage`, enqueue a write of the image's raw bytes into
    it (the device write fails when the source is longer than the buffer);
    any other kind is silently skipped by the `if let`.  Indexing a missing
    key panics. -/
def setInput (s : CScope) (bytes : List Nat) : Except String CScope :=
  match lookupB s.buffers "input" with
  | none => .error "key not found: input"
  | some (.dynImage d) =>
      if bytes.length ≤ d.length then
        .ok { s with buffers := insertB s.buffers "input" (.dynImage (bytes ++ d.drop bytes.length)) }
      else .error "could not write buffer"
  | some _ => .ok s

/-- `CScope::get_output` (compute.rs lines 342-349): allocate a host vector
    of `dynimg_size.0 * dynimg_size.1 * 3` zero bytes; if the entry under
    "output" is a `DynImage`, enqueue a read filling the vector (the device
    read fails when the vector is longer than the buffer); any other kind is
    silently skipped, leaving the zeros.  The result is reinterpreted as an
    image of the current frame dimensions. -/
def getOutput (s : CScope) : Except String (Nat × Nat × List Nat) :=
  let w := s.dynimgSize.1
  let h := s.dynimgSize.2
  let n := w * h * 3
  match lookupB s.buffers "output" with
  | none => .error "key not found: output"
  | some (.dynImage d) =>
      if n ≤ d.length then .ok (w, h, d.take n) else .error "could not read buffer"
  | some _ => .ok (w, h, List.replicate n 0)

/-- `CInstance::compute` (compute.rs lines 154-165), parameterised by the
    behaviour of the script's `run` function: set the frame size to the
    incoming image's dimensions, upload the image into "input", run the
    script, and download "output". -/
def compute (s : CScope) (runFn : CScope → Except String CScope)
    (imgW imgH : Nat) (bytes : List Nat) : Except String (Nat × Nat × List Nat) := do
  let s1 := setImageSize s (imgW, imgH)
  let s2 ← setInput s1 bytes
  let s3 ← runFn s2
  getOutput s3

/-- A `run` function that copies the "input" buffer to the "output" buffer
    verbatim (the round-trip pipeline of the spec): read input's bytes and
    write them into output's device buffer. -/
def copyRun (s : CScope) : Except String CScope :=
  match lookupB s.buffers "input", lookupB s.buffers "output" with
  | some (.dynImage d), some (.dynImage q) =>
      if d.length ≤ q.length then
        .ok { s with buffers := insertB s.buffers "output" (.dynImage (d ++ q.drop d.length)) }
      else .error "could not copy buffer"
  | _, _ => .error "copy run expects dynimage input and output"

/-- A value pushed into the per-frame rhai scope by `create_rhai_scope`:
    either a buffer reference or an image reference. -/
inductive RVal where
  | buf (r : BufferRhaiRef)
  | img (r : ImageRhaiRef)
deriving DecidableEq, Repr

/-- The per-entry step of `CScope::create_rhai_scope` (compute.rs lines
    352-373): scalar buffers yield a `BufferRhaiRef` caching the device
    length; a `DynImage` yields an `ImageRhaiRef` caching the *current*
    `dynimg_size`; an `Image` yields an `ImageRhaiRef` caching its fixed
    dimensions. -/
def refFor (s : CScope) (name : String) : Buff → RVal
  | .intBuffer d => .buf { name := name, size := d.length }
  | .floatBuffer d => .buf { name := name, size := d.length }
  | .dynImage _ => .img { name := name, width := s.dynimgSize.1, height := s.dynimgSize.2 }
  | .image _ w h => .img { name := name, width := w, height := h }

/-- `CScope::create_rhai_scope` (compute.rs lines 352-373): push one
    scripting-visible reference per registry entry. -/
def createRhaiScope (s : CScope) : List (String × RVal) :=
  s.buffers.map fun p => (p.1, refFor s p.1 p.2)

/-- The function names registered on the init-phase rhai engine
    (compute.rs lines 132-135): exactly `create_int_buffer`,
    `create_float_buffer` and `create_dynimage`. -/
def initEngineFns : List String :=
  ["create_int_buffer", "create_float_buffer", "create_dynimage"]

/-- The function names registered on the per-frame rhai engine
    (compute.rs lines 105-114): `call_kernel` on the scope plus the shape
    queries `len`, `width` and `height` on references. -/
def runEngineFns : List String :=
  ["call_kernel", "len", "width", "height"]

/-- A registry-affecting scripting operation available after `init` built
    the reserved slots: the three creation primitives bound on the init
    engine, plus the executor's per-frame upload into "input". -/
inductive SOp where
  | createInt (name : String) (vals : List Dyn)
  | createFloat (name : String) (vals : List Dyn)
  | createDyn (name : String)
  | uploadInput (bytes : List Nat)
deriving DecidableEq, Repr

/-- The registry name an operation creates under, if any. -/
def SOp.target : SOp → Option String
  | .createInt n _ => some n
  | .createFloat n _ => some n
  | .createDyn n => some n
  | .uploadInput _ => none

/-- Apply one scripting operation to the scope. -/
def applySOp (s : CScope) : SOp → Except String CScope
  | .createInt n vals => (createIntBuffer s n vals).map Prod.fst
  | .createFloat n vals => (createFloatBuffer s n vals).map Prod.fst
  | .createDyn n => .ok (createDynimage s n)
  | .uploadInput bytes => setInput s bytes

/-- Apply a sequence of scripting operations left to right. -/
def applySOps (s : CScope) : List SOp → Except String CScope
  | [] => .ok s
  | op :: rest => do
      let s1 ← applySOp s op
      applySOps s1 rest

/-! ## Registry lemmas -/

theorem lookupB_insertB_self (r : Registry) (n : String) (b : Buff) :
    lookupB (insertB r n b) n = some b := by
  induction r with
  | nil => simp [insertB, lookupB]
  | cons p t ih =>
      obtain ⟨m, c⟩ := p
      by_cases hm : m = n
      · simp [insertB, hm, lookupB]
      · simp [insertB, hm, lookupB, ih]

theorem lookupB_insertB_ne (r : Registry) (n m : String) (b : Buff) (h : n ≠ m) :
    lookupB (insertB r n b) m = lookupB r m := by
  induction r with
  | nil => simp [insertB, lookupB, h]
  | cons p t ih =>
      obtain ⟨k, c⟩ := p
      by_cases hk : k = n
      · subst hk
        simp [insertB, lookupB, h]
      · simp [insertB, hk, lookupB, ih]

/-! ## Kernel argument resolution: well-formed and ill-formed arguments -/

/-- An argument `call_kernel` can bind: a numeric scalar, a buffer reference
    resolving to a scalar buffer, or an image reference resolving to an
    image-kind entry. -/
def wfArg (s : CScope) (a : Dyn) : Bool :=
  match a with
  | .num _ _ => true
  | .bufRef r =>
      match lookupB s.buffers r.name with
      | some (.intBuffer _) => true
      | some (.floatBuffer _) => true
      | _ => false
  | .imgRef r =>
      match lookupB s.buffers r.name with
      | some (.image _ _ _) => true
      | some (.dynImage _) => true
      | _ => false
  | .other _ => false

/-- Modelled from the spec: the per-argument binding the claim describes — a
    numeric scalar binds one argument, a scalar-buffer reference binds the
    resolved device buffer, a `FixedImage` reference binds buffer, width and
    height in three consecutive positions, a `DynamicImage` reference binds
    only the buffer. -/
def specBind (s : CScope) (a : Dyn) : List KArg :=
  match a with
  | .num ty v => [.num ty v]
  | .bufRef r =>
      match lookupB s.buffers r.name with
      | some b => [.buf b]
      | none => []
  | .imgRef r =>
      match lookupB s.buffers r.name with
      | some (.image d w h) => [.buf (.image d w h), .uszArg r.width, .uszArg r.height]
      | some b => [.buf b]
      | none => []
  | .other _ => []

theorem resolveArg_of_wf (s : CScope) (a : Dyn) (h : wfArg s a = true) :
    resolveArg s a = .ok (specBind s a) := by
  cases a with
  | num ty v => rfl
  | bufRef r =>
      cases hl : lookupB s.buffers r.name with
      | none => simp [wfArg, hl] at h
      | some b =>
          cases b <;> simp [wfArg, hl] at h <;> simp [resolveArg, specBind, hl]
  | imgRef r =>
      cases hl : lookupB s.buffers r.name with
      | none => simp [wfArg, hl] at h
      | some b =>
          cases b <;> simp [wfArg, hl] at h <;> simp [resolveArg, specBind, hl]
  | other tag => simp [wfArg] at h

theorem callKernelArgs_of_wf (s : CScope) (args : List Dyn)
    (h : ∀ a ∈ args, wfArg s a = true) :
    callKernelArgs s args = .ok (args.flatMap (specBind s)) := by
  induction args with
  | nil => rfl
  | cons a rest ih =>
      have ha : wfArg s a = true := h a (List.mem_cons_self a rest)
      have hrest : ∀ b ∈ rest, wfArg s b = true := fun b hb => h b (List.mem_cons_of_mem a hb)
      simp [callKernelArgs, resolveArg_of_wf s a ha, ih hrest, List.flatMap_cons]
      rfl

/-- A reference argument whose name is absent from the registry or whose
    entry has an incompatible kind (an image kind behind a buffer reference,
    or a scalar kind behind an image reference). -/
def isBadRef (s : CScope) (a : Dyn) : Bool :=
  match a with
  | .bufRef r =>
      match lookupB s.buffers r.name with
      | some (.intBuffer _) => false
      | some (.floatBuffer _) => false
      | _ => true
  | .imgRef r =>
      match lookupB s.buffers r.name with
      | some (.image _ _ _) => false
      | some (.dynImage _) => false
      | _ => true
  | _ => false

/-- The panic message `call_kernel` produces for a failing reference. -/
def refErrMsg : Dyn → String
  | .bufRef r => "There is no buffer named " ++ r.name
  | .imgRef r => "There is no image named " ++ r.name
  | _ => ""

theorem resolveArg_of_bad (s : CScope) (a : Dyn) (h : isBadRef s a = true) :
    resolveArg s a = .error (refErrMsg a) := by
  cases a with
  | num ty v => simp [isBadRef] at h
  | bufRef r =>
      cases hl : lookupB s.buffers r.name with
      | none => simp [resolveArg, refErrMsg, hl]
      | some b =>
          cases b <;> simp [isBadRef, hl] at h <;> simp [resolveArg, refErrMsg, hl]
  | imgRef r =>
      cases hl : lookupB s.buffers r.name with
      | none => simp [resolveArg, refErrMsg, hl]
      | some b =>
          cases b <;> simp [isBadRef, hl] at h <;> simp [resolveArg, refErrMsg, hl]
  | other tag => simp [isBadRef] at h

/-! ## Plumbing lemmas for `Except` binds -/

theorem bindOk {α β : Type} (x : α) (f : α → Except String β) :
    (Except.ok x >>= f) = f x := rfl

theorem bindErr {α β : Type} (e : String) (f : α → Except String β) :
    ((Except.error e : Except String α) >>= f) = .error e := rfl

theorem callKernelArgs_cons (s : CScope) (a : Dyn) (l : List Dyn) :
    callKernelArgs s (a :: l) =
      resolveArg s a >>= fun ks => callKernelArgs s l >>= fun tail => pure (ks ++ tail) := rfl

theorem callKernelArgs_append_bad (s : CScope) (pre post : List Dyn) (bad : Dyn)
    (hpre : ∀ a ∈ pre, wfArg s a = true) (hbad : isBadRef s bad = true) :
    callKernelArgs s (pre ++ bad :: post) = .error (refErrMsg bad) := by
  induction pre with
  | nil =>
      rw [List.nil_append, callKernelArgs_cons, resolveArg_of_bad s bad hbad, bindErr]
  | cons a t ih =>
      have ha : wfArg s a = true := hpre a (List.mem_cons_self a t)
      have ht : ∀ b ∈ t, wfArg s b = true := fun b hb => hpre b (List.mem_cons_of_mem a hb)
      rw [List.cons_append, callKernelArgs_cons, resolveArg_of_wf s a ha, bindOk, ih ht,
        bindErr]

theorem callKernel_preserves_scope (s : CScope) (args : List Dyn) (ks : List KArg)
    (s2 : CScope) (h : callKernel s args = .ok (ks, s2)) : s2 = s := by
  cases hc : callKernelArgs s args with
  | error e => simp [callKernel, hc, bindErr] at h
  | ok l =>
      simp [callKernel, hc, bindOk] at h
      exact h.2.symm

/-- Whether a rhai `Dynamic` holds a type `call_kernel` does not support. -/
def Dyn.isOther : Dyn → Bool
  | .other _ => true
  | _ => false

theorem callKernelArgs_filter_other (s : CScope) (args : List Dyn) :
    callKernelArgs s (args.filter fun a => !(Dyn.isOther a)) = callKernelArgs s args := by
  induction args with
  | nil => rfl
  | cons a t ih =>
      have hkeep : ∀ a : Dyn, Dyn.isOther a = false →
          List.filter (fun x => !(Dyn.isOther x)) (a :: t) =
            a :: List.filter (fun x => !(Dyn.isOther x)) t := by
        intro a ha
        simp [List.filter_cons, ha]
      cases a with
      | other tag =>
          have hf : List.filter (fun x => !(Dyn.isOther x)) (Dyn.other tag :: t) =
              List.filter (fun x => !(Dyn.isOther x)) t := by
            simp [List.filter_cons, Dyn.isOther]
          rw [hf, ih, callKernelArgs_cons]
          show callKernelArgs s t =
            Except.ok [] >>= fun ks => callKernelArgs s t >>= fun tail => pure (ks ++ tail)
          rw [bindOk]
          cases hc : callKernelArgs s t with
          | error e => rfl
          | ok l => rfl
      | num ty v =>
          rw [hkeep _ (by rfl), callKernelArgs_cons, callKernelArgs_cons, ih]
      | bufRef r =>
          rw [hkeep _ (by rfl), callKernelArgs_cons, callKernelArgs_cons, ih]
      | imgRef r =>
          rw [hkeep _ (by rfl), callKernelArgs_cons, callKernelArgs_cons, ih]

/-! ## Claim C1: argument binding order -/

/-- C1: every `call_kernel(name, args)` invocation binds kernel arguments in
    strict left-to-right order of `args`: a numeric scalar binds one
    argument, a scalar-buffer reference binds the resolved device buffer, a
    `FixedImage` reference binds buffer, width and height in three
    consecutive positions, a `DynamicImage` reference binds only the buffer;
    after all script arguments, exactly the current frame width and then the
    frame height are appended as unsigned 32-bit scalars. -/
theorem c1_argument_order (s : CScope) (args : List Dyn)
    (h : ∀ a ∈ args, wfArg s a = true) :
    callKernel s args =
      .ok (args.flatMap (specBind s) ++
        [.u32Arg (s.dynimgSize.1 % 2 ^ 32), .u32Arg (s.dynimgSize.2 % 2 ^ 32)], s) := by
  simp [callKernel, callKernelArgs_of_wf s args h, bindOk]

/-- A concrete scope for exercising `call_kernel`: the two reserved slots at
    frame size 1×1, a two-element int buffer "b", and a fixed 2×2 image
    "im". -/
def sW1 : CScope :=
  { buffers :=
      insertB (insertB (initScope 1 1).buffers "b" (Buff.intBuffer [4, 5])) "im"
        (Buff.image (List.replicate 12 0) 2 2),
    dynimgSize := (1, 1) }

/-- A concrete well-formed argument list: a scalar, a buffer reference, a
    fixed-image reference and a dynamic-image reference. -/
def argsW1 : List Dyn :=
  [Dyn.num .i64 7, Dyn.bufRef ⟨"b", 2⟩, Dyn.imgRef ⟨"im", 2, 2⟩, Dyn.imgRef ⟨"input", 1, 1⟩]

theorem c1_argument_order_witness :
    (∀ a ∈ argsW1, wfArg sW1 a = true) ∧
    callKernel sW1 argsW1 =
      .ok (argsW1.flatMap (specBind sW1) ++
        [.u32Arg (sW1.dynimgSize.1 % 2 ^ 32), .u32Arg (sW1.dynimgSize.2 % 2 ^ 32)], sW1) :=
  ⟨by decide, c1_argument_order sW1 argsW1 (by decide)⟩

/-! ## Claim C3: unsupported argument types -/

/-- C3 counterexample: passing a value that is neither a supported numeric
    scalar nor a buffer/image reference (here a rhai string) does NOT fail:
    `call_kernel` succeeds, silently dropping the argument and binding only
    the two trailing frame-size scalars. -/
theorem c3_counterexample :
    callKernel (initScope 2 2) [Dyn.other "string"] =
      .ok ([.u32Arg 2, .u32Arg 2], initScope 2 2) := by rfl

/-- C3 amended: an argument matching none of the supported cases is silently
    skipped — the kernel call behaves exactly as if that argument had been
    removed from the list, binding nothing for it and raising no error. -/
theorem c3_amended_silent_skip (s : CScope) (args : List Dyn) :
    callKernel s (args.filter fun a => !(Dyn.isOther a)) = callKernel s args := by
  simp [callKernel, callKernelArgs_filter_other s args]

/-! ## Claim C5: failing buffer/image references -/

/-- C5: a `call_kernel` whose argument list contains a buffer or image
    reference with an unknown name or an incompatible registry kind fails
    with the panic message naming that buffer (once every argument to its
    left is a supported, resolvable one), and `call_kernel` never mutates
    the registry: whenever it returns at all, the scope is returned
    unchanged (so in particular no buffer was mutated on the failing call,
    and the kernel — built and enqueued only after all arguments resolve —
    is never enqueued). -/
theorem c5_bad_reference_fails (s : CScope) (pre post : List Dyn) (bad : Dyn)
    (hpre : ∀ a ∈ pre, wfArg s a = true) (hbad : isBadRef s bad = true) :
    callKernel s (pre ++ bad :: post) = .error (refErrMsg bad) ∧
    ((∃ r, bad = Dyn.bufRef r ∧ refErrMsg bad = "There is no buffer named " ++ r.name) ∨
     (∃ r, bad = Dyn.imgRef r ∧ refErrMsg bad = "There is no image named " ++ r.name)) ∧
    ∀ (args2 : List Dyn) (ks : List KArg) (s2 : CScope),
      callKernel s args2 = .ok (ks, s2) → s2 = s := by
  refine ⟨?_, ?_, fun args2 ks s2 h2 => callKernel_preserves_scope s args2 ks s2 h2⟩
  · simp [callKernel, callKernelArgs_append_bad s pre post bad hpre hbad, bindErr]
  · cases bad with
    | num ty v => simp [isBadRef] at hbad
    | other tag => simp [isBadRef] at hbad
    | bufRef r => exact Or.inl ⟨r, rfl, rfl⟩
    | imgRef r => exact Or.inr ⟨r, rfl, rfl⟩

theorem c5_bad_reference_fails_witness :
    (∀ a ∈ ([Dyn.num .i64 1] : List Dyn), wfArg (initScope 1 1) a = true) ∧
    isBadRef (initScope 1 1) (Dyn.bufRef ⟨"nosuch", 0⟩) = true ∧
    callKernel (initScope 1 1) ([Dyn.num .i64 1] ++ Dyn.bufRef ⟨"nosuch", 0⟩ :: []) =
      .error (refErrMsg (Dyn.bufRef ⟨"nosuch", 0⟩)) :=
  ⟨by decide, by decide,
    (c5_bad_reference_fails (initScope 1 1) [Dyn.num .i64 1] [] (Dyn.bufRef ⟨"nosuch", 0⟩)
      (by decide) (by decide)).1⟩

/-! ## Claim C6: primitives bound during the init phase -/

/-- C6: the init-phase rhai engine binds only `create_int_buffer`,
    `create_float_buffer` and `create_dynimage`; `create_image` is never
    registered, neither on the init engine nor on the per-frame engine, so a
    pipeline script cannot call it. -/
theorem c6_create_image_not_registered :
    "create_int_buffer" ∈ initEngineFns ∧ "create_float_buffer" ∈ initEngineFns ∧
    "create_dynimage" ∈ initEngineFns ∧ "create_image" ∉ initEngineFns ∧
    "create_image" ∉ runEngineFns := by decide

/-! ## Claim C2: frame-size change does not resize the reserved buffers -/

/-- C2 (refuting the resize claim): after `init` at 2×2, changing the frame
    size to 3×3 — exactly what `compute` does on a differently-sized image
    before running the script — leaves the "input" and "output" device
    buffers at their `init`-time 12 bytes, not the claimed `3*3*3 = 27`;
    consequently `compute` on a 3×3 image aborts while uploading 27 bytes
    into the stale 12-byte "input" buffer instead of resizing it. -/
theorem c2_no_resize_on_frame_change :
    (lookupB (setImageSize (initScope 2 2) (3, 3)).buffers "input" =
        some (.dynImage (List.replicate 12 0)) ∧
      lookupB (setImageSize (initScope 2 2) (3, 3)).buffers "output" =
        some (.dynImage (List.replicate 12 0)) ∧
      (setImageSize (initScope 2 2) (3, 3)).dynimgSize = (3, 3) ∧
      (List.replicate 12 (0 : Nat)).length ≠ 3 * 3 * 3) ∧
    compute (initScope 2 2) (fun s => .ok s) 3 3 (List.replicate 27 0) =
      .error "could not write buffer" := by
  refine ⟨⟨by rfl, by rfl, by rfl, by decide⟩, by rfl⟩

/-! ## Claim C7: scalar buffer creation -/

theorem castAllI64_length (vals : List Dyn) (data : List Int)
    (h : castAllI64 vals = some data) : data.length = vals.length := by
  induction vals generalizing data with
  | nil =>
      simp [castAllI64] at h
      subst h
      rfl
  | cons d t ih =>
      cases hc : castI64 d with
      | none => simp [castAllI64, hc] at h
      | some v =>
          cases ht : castAllI64 t with
          | none => simp [castAllI64, hc, ht] at h
          | some vs =>
              simp [castAllI64, hc, ht] at h
              subst h
              simp [ih vs ht]

theorem castAllF64_length (vals : List Dyn) (data : List Int)
    (h : castAllF64 vals = some data) : data.length = vals.length := by
  induction vals generalizing data with
  | nil =>
      simp [castAllF64] at h
      subst h
      rfl
  | cons d t ih =>
      cases hc : castF64 d with
      | none => simp [castAllF64, hc] at h
      | some v =>
          cases ht : castAllF64 t with
          | none => simp [castAllF64, hc, ht] at h
          | some vs =>
              simp [castAllF64, hc, ht] at h
              subst h
              simp [ih vs ht]

/-- C7: `create_int_buffer` (resp. `create_float_buffer`) on a list of
    values of the requested numeric kind allocates a device array of exactly
    that many elements, uploads the cast values, inserts it into the
    registry under the given name (overwriting any prior entry — the insert
    semantics of the map), makes the entry visible to the very next lookup,
    and returns a reference whose `len` query equals the element count. -/
theorem c7_scalar_buffer_creation (s : CScope) (nameI nameF : String)
    (valsI valsF : List Dyn) (iv fv : List Int)
    (hI : castAllI64 valsI = some iv) (hF : castAllF64 valsF = some fv) :
    (createIntBuffer s nameI valsI =
        .ok ({ s with buffers := insertB s.buffers nameI (.intBuffer iv) },
          { name := nameI, size := iv.length }) ∧
      lookupB (insertB s.buffers nameI (.intBuffer iv)) nameI = some (.intBuffer iv) ∧
      iv.length = valsI.length ∧
      BufferRhaiRef.len { name := nameI, size := iv.length } = valsI.length) ∧
    (createFloatBuffer s nameF valsF =
        .ok ({ s with buffers := insertB s.buffers nameF (.floatBuffer fv) },
          { name := nameF, size := fv.length }) ∧
      lookupB (insertB s.buffers nameF (.floatBuffer fv)) nameF = some (.floatBuffer fv) ∧
      fv.length = valsF.length ∧
      BufferRhaiRef.len { name := nameF, size := fv.length } = valsF.length) := by
  refine ⟨⟨?_, lookupB_insertB_self _ _ _, castAllI64_length valsI iv hI, ?_⟩,
    ⟨?_, lookupB_insertB_self _ _ _, castAllF64_length valsF fv hF, ?_⟩⟩
  · simp [createIntBuffer, hI]
  · simp [BufferRhaiRef.len, castAllI64_length valsI iv hI]
  · simp [createFloatBuffer, hF]
  · simp [BufferRhaiRef.len, castAllF64_length valsF fv hF]

theorem c7_scalar_buffer_creation_witness :
    castAllI64 [Dyn.num .i64 3, Dyn.num .i64 4] = some [3, 4] ∧
    castAllF64 [Dyn.num .f64 9] = some [9] ∧
    createIntBuffer (initScope 1 1) "k" [Dyn.num .i64 3, Dyn.num .i64 4] =
      .ok ({ initScope 1 1 with
              buffers := insertB (initScope 1 1).buffers "k" (.intBuffer [3, 4]) },
        { name := "k", size := ([3, 4] : List Int).length }) :=
  ⟨by decide, by decide,
    ((c7_scalar_buffer_creation (initScope 1 1) "k" "f" [Dyn.num .i64 3, Dyn.num .i64 4]
      [Dyn.num .f64 9] [3, 4] [9] (by decide) (by decide)).1).1⟩

/-! ## Claim C9: cached shape metadata in references -/

/-- C9: a scripting-visible reference caches its shape at creation time and
    is never refreshed from the registry: the `width`/`height` queries of an
    image reference created for a `DynImage` entry return the frame size
    current at creation; a later `set_image_size` changes the registry's
    current frame size (and what a freshly created reference would cache)
    but the queries on the old reference — pure functions of its fields —
    still return the creation-time values; likewise `len` on a buffer
    reference returns only the cached size field. -/
theorem c9_reference_shape_is_cached (s : CScope) (name : String) (d : List Nat)
    (r : ImageRhaiRef) (sz : Nat × Nat)
    (hr : refFor s name (.dynImage d) = .img r) :
    ImageRhaiRef.widthQ r = s.dynimgSize.1 ∧
    ImageRhaiRef.heightQ r = s.dynimgSize.2 ∧
    (setImageSize s sz).dynimgSize = sz ∧
    refFor (setImageSize s sz) name (.dynImage d) =
      .img { name := name, width := sz.1, height := sz.2 } ∧
    (∀ b : BufferRhaiRef, BufferRhaiRef.len b = b.size) := by
  simp only [refFor, RVal.img.injEq] at hr
  subst hr
  exact ⟨rfl, rfl, rfl, rfl, fun b => rfl⟩

theorem c9_reference_shape_is_cached_witness :
    refFor (initScope 2 3) "input" (.dynImage (List.replicate 18 0)) =
      .img { name := "input", width := 2, height := 3 } ∧
    ImageRhaiRef.widthQ { name := "input", width := 2, height := 3 } =
      (initScope 2 3).dynimgSize.1 ∧
    (setImageSize (initScope 2 3) (5, 7)).dynimgSize = (5, 7) ∧
    refFor (setImageSize (initScope 2 3) (5, 7)) "input" (.dynImage (List.replicate 18 0)) =
      .img { name := "input", width := 5, height := 7 } :=
  ⟨by rfl,
    (c9_reference_shape_is_cached (initScope 2 3) "input" (List.replicate 18 0)
      { name := "input", width := 2, height := 3 } (5, 7) (by rfl)).1,
    (c9_reference_shape_is_cached (initScope 2 3) "input" (List.replicate 18 0)
      { name := "input", width := 2, height := 3 } (5, 7) (by rfl)).2.2.1,
    (c9_reference_shape_is_cached (initScope 2 3) "input" (List.replicate 18 0)
      { name := "input", width := 2, height := 3 } (5, 7) (by rfl)).2.2.2.1⟩

/-! ## Claim C10: reserved slots of the wrong kind are silently tolerated -/

/-- C10: two independent halves, each over every registry state on its own.
    Whenever the entry under "input" exists but is not a `DynImage`,
    `set_input` silently skips the upload and the scope is unchanged; and
    whenever the entry under "output" exists but is not a `DynImage`,
    `get_output` raises no error and returns an image of the current frame
    dimensions whose bytes are all zero (the freshly allocated host vector,
    never written) — the incompatible kind of a reserved slot is never
    reported, regardless of what the other reserved slot holds. -/
theorem c10_wrong_kind_reserved_slots :
    (∀ (s : CScope) (bIn : Buff) (bytes : List Nat),
      lookupB s.buffers "input" = some bIn → Buff.isDynImage bIn = false →
      setInput s bytes = .ok s) ∧
    (∀ (s : CScope) (bOut : Buff),
      lookupB s.buffers "output" = some bOut → Buff.isDynImage bOut = false →
      getOutput s = .ok (s.dynimgSize.1, s.dynimgSize.2,
        List.replicate (s.dynimgSize.1 * s.dynimgSize.2 * 3) 0)) := by
  constructor
  · intro s bIn bytes h1 h2
    cases bIn with
    | dynImage d => simp [Buff.isDynImage] at h2
    | intBuffer d => simp [setInput, h1]
    | floatBuffer d => simp [setInput, h1]
    | image d w h => simp [setInput, h1]
  · intro s bOut h3 h4
    cases bOut with
    | dynImage d => simp [Buff.isDynImage] at h4
    | intBuffer d => simp [getOutput, h3]
    | floatBuffer d => simp [getOutput, h3]
    | image d w h => simp [getOutput, h3]

/-- A scope where only the "input" slot was overwritten by a scalar buffer;
    "output" is a proper `DynImage`. -/
def sW10a : CScope :=
  { buffers := [("input", Buff.intBuffer [1]),
      ("output", Buff.dynImage (List.replicate 3 0))],
    dynimgSize := (1, 1) }

/-- A scope where only the "output" slot was overwritten by a scalar
    buffer; "input" is a proper `DynImage`. -/
def sW10b : CScope :=
  { buffers := [("input", Buff.dynImage (List.replicate 3 0)),
      ("output", Buff.intBuffer [2])],
    dynimgSize := (1, 1) }

theorem c10_wrong_kind_reserved_slots_witness :
    setInput sW10a [7, 7, 7] = .ok sW10a ∧
    getOutput sW10b = .ok (sW10b.dynimgSize.1, sW10b.dynimgSize.2,
      List.replicate (sW10b.dynimgSize.1 * sW10b.dynimgSize.2 * 3) 0) :=
  ⟨c10_wrong_kind_reserved_slots.1 sW10a (Buff.intBuffer [1]) [7, 7, 7] (by rfl) (by rfl),
    c10_wrong_kind_reserved_slots.2 sW10b (Buff.intBuffer [2]) (by rfl) (by rfl)⟩

/-! ## Claim C4: the reserved-slot invariant -/

/-- The reserved-slot property at frame size `(w, h)`: "input" and "output"
    are `DynImage` entries of `w*h*3` bytes and the current frame size is
    `(w, h)`. -/
def reservedInv (w h : Nat) (s : CScope) : Prop :=
  (∃ din, lookupB s.buffers "input" = some (.dynImage din) ∧ din.length = w * h * 3) ∧
  (∃ dout, lookupB s.buffers "output" = some (.dynImage dout) ∧ dout.length = w * h * 3) ∧
  s.dynimgSize = (w, h)

/-- C4 counterexample: the invariant as claimed fails on two concrete
    runs.  First, a script's `create_int_buffer("input", [5])` during `init`
    overwrites the reserved slot, after which "input" is an `IntBuffer`, not
    a `DynamicImage`.  Second, after a frame-size change to 3×3 (what
    `compute` does on a 3×3 image) the reserved buffers keep their 12 bytes,
    which is not `3*3*3 = 27`, so they are not sized to the current frame
    dimensions. -/
theorem c4_counterexample :
    applySOps (initScope 2 2) [SOp.createInt "input" [Dyn.num .i64 5]] =
      .ok { buffers := [("input", Buff.intBuffer [5]),
              ("output", Buff.dynImage (List.replicate 12 0))],
            dynimgSize := (2, 2) } ∧
    lookupB [("input", Buff.intBuffer [5]),
      ("output", Buff.dynImage (List.replicate 12 0))] "input" =
      some (.intBuffer [5]) ∧
    ¬ reservedInv 2 2 { buffers := [("input", Buff.intBuffer [5]),
        ("output", Buff.dynImage (List.replicate 12 0))], dynimgSize := (2, 2) } ∧
    (setImageSize (initScope 2 2) (3, 3)).dynimgSize = (3, 3) ∧
    lookupB (setImageSize (initScope 2 2) (3, 3)).buffers "input" =
      some (.dynImage (List.replicate 12 0)) ∧
    ¬ reservedInv 3 3 (setImageSize (initScope 2 2) (3, 3)) := by
  refine ⟨by rfl, by rfl, ?_, by rfl, by rfl, ?_⟩
  · rintro ⟨⟨din, hdin, -⟩, -, -⟩
    simp [lookupB] at hdin
  · rintro ⟨⟨din, hdin, hlen⟩, -, -⟩
    have h0 : lookupB (setImageSize (initScope 2 2) (3, 3)).buffers "input" =
        some (Buff.dynImage (List.replicate 12 0)) := by rfl
    rw [h0] at hdin
    injection hdin with h
    injection h with h2
    rw [← h2] at hlen
    exact absurd hlen (by decide)

theorem reservedInv_step (w h : Nat) (s s2 : CScope) (op : SOp)
    (h1 : SOp.target op ≠ some "input") (h2 : SOp.target op ≠ some "output")
    (happ : applySOp s op = .ok s2) (hinv : reservedInv w h s) : reservedInv w h s2 := by
  obtain ⟨⟨din, hdin, hdlen⟩, ⟨dout, hout, holen⟩, hsz⟩ := hinv
  cases op with
  | createInt n vals =>
      have hn1 : n ≠ "input" := fun he => h1 (by simp [SOp.target, he])
      have hn2 : n ≠ "output" := fun he => h2 (by simp [SOp.target, he])
      cases hc : castAllI64 vals with
      | none => simp [applySOp, createIntBuffer, hc, Except.map] at happ
      | some data =>
          simp [applySOp, createIntBuffer, hc, Except.map] at happ
          subst happ
          exact ⟨⟨din, by rwa [lookupB_insertB_ne _ _ _ _ hn1], hdlen⟩,
            ⟨dout, by rwa [lookupB_insertB_ne _ _ _ _ hn2], holen⟩, hsz⟩
  | createFloat n vals =>
      have hn1 : n ≠ "input" := fun he => h1 (by simp [SOp.target, he])
      have hn2 : n ≠ "output" := fun he => h2 (by simp [SOp.target, he])
      cases hc : castAllF64 vals with
      | none => simp [applySOp, createFloatBuffer, hc, Except.map] at happ
      | some data =>
          simp [applySOp, createFloatBuffer, hc, Except.map] at happ
          subst happ
          exact ⟨⟨din, by rwa [lookupB_insertB_ne _ _ _ _ hn1], hdlen⟩,
            ⟨dout, by rwa [lookupB_insertB_ne _ _ _ _ hn2], holen⟩, hsz⟩
  | createDyn n =>
      have hn1 : n ≠ "input" := fun he => h1 (by simp [SOp.target, he])
      have hn2 : n ≠ "output" := fun he => h2 (by simp [SOp.target, he])
      simp [applySOp, createDynimage] at happ
      subst happ
      exact ⟨⟨din, by rwa [lookupB_insertB_ne _ _ _ _ hn1], hdlen⟩,
        ⟨dout, by rwa [lookupB_insertB_ne _ _ _ _ hn2], holen⟩, hsz⟩
  | uploadInput bytes =>
      simp only [applySOp, setInput, hdin] at happ
      by_cases hble : bytes.length ≤ din.length
      · rw [if_pos hble] at happ
        injection happ with happ
        subst happ
        refine ⟨⟨bytes ++ din.drop bytes.length, lookupB_insertB_self _ _ _, ?_⟩,
          ⟨dout, by rwa [lookupB_insertB_ne _ _ _ _ (by decide)], holen⟩, hsz⟩
        rw [List.length_append, List.length_drop, ← hdlen]
        omega
      · rw [if_neg hble] at happ
        exact absurd happ (by simp)

/-- C4 amended: after `init` at frame size `(w, h)`, any sequence of
    script-side registry operations that creates only under names other
    than "input" and "output" (creations of any kind plus frame uploads,
    with the frame size unchanged — the code neither resizes the reserved
    buffers on a frame-size change nor guards the reserved names) preserves
    the reserved-slot property: "input" and "output" remain `DynImage`
    entries of `w*h*3` bytes matching the current frame dimensions. -/
theorem c4_amended_reserved_invariant (w h : Nat) (ops : List SOp) (s2 : CScope)
    (hops : ∀ op ∈ ops, SOp.target op ≠ some "input" ∧ SOp.target op ≠ some "output")
    (happ : applySOps (initScope w h) ops = .ok s2) :
    reservedInv w h s2 := by
  have hinit : reservedInv w h (initScope w h) := by
    refine ⟨⟨List.replicate (w * h * 3) 0, ?_, by simp⟩,
      ⟨List.replicate (w * h * 3) 0, ?_, by simp⟩, rfl⟩
    · show lookupB (insertB (insertB [] "input" _) "output" _) "input" = _
      rw [lookupB_insertB_ne _ _ _ _ (by decide), lookupB_insertB_self]
    · exact lookupB_insertB_self _ _ _
  have main : ∀ (ops : List SOp) (s s2 : CScope),
      (∀ op ∈ ops, SOp.target op ≠ some "input" ∧ SOp.target op ≠ some "output") →
      reservedInv w h s → applySOps s ops = .ok s2 → reservedInv w h s2 := by
    intro ops
    induction ops with
    | nil =>
        intro s s2 _ hinv happ
        simp [applySOps] at happ
        rwa [← happ]
    | cons op rest ih =>
        intro s s2 hops2 hinv happ
        cases hc : applySOp s op with
        | error e =>
            rw [show applySOps s (op :: rest) =
              applySOp s op >>= fun s1 => applySOps s1 rest from rfl, hc, bindErr] at happ
            exact absurd happ (by simp)
        | ok s1 =>
            rw [show applySOps s (op :: rest) =
              applySOp s op >>= fun s1 => applySOps s1 rest from rfl, hc, bindOk] at happ
            have hop := hops2 op (List.mem_cons_self op rest)
            exact ih s1 s2 (fun o ho => hops2 o (List.mem_cons_of_mem op ho))
              (reservedInv_step w h s s1 op hop.1 hop.2 hc hinv) happ
  exact main ops (initScope w h) s2 hops hinit happ

/-- A concrete init-phase operation sequence avoiding the reserved names. -/
def opsW4 : List SOp :=
  [SOp.createInt "aux" [Dyn.num .i64 1], SOp.createDyn "tmp",
    SOp.uploadInput (List.replicate 12 7)]

/-- The scope reached by running `opsW4` after `init` at 2×2. -/
def s2W4 : CScope :=
  { buffers := [("input", Buff.dynImage (List.replicate 12 7)),
      ("output", Buff.dynImage (List.replicate 12 0)),
      ("aux", Buff.intBuffer [1]),
      ("tmp", Buff.dynImage (List.replicate 12 0))],
    dynimgSize := (2, 2) }

theorem c4_amended_reserved_invariant_witness :
    (∀ op ∈ opsW4, SOp.target op ≠ some "input" ∧ SOp.target op ≠ some "output") ∧
    reservedInv 2 2 s2W4 :=
  ⟨by decide, c4_amended_reserved_invariant 2 2 opsW4 s2W4 (by decide) (by rfl)⟩

/-! ## Claim C8: round-trip identity -/

/-- C8: for any image of the configured frame size (bytes of length
    `w*h*3`), when the reserved slots hold `DynImage` buffers of that size
    (as `init` leaves them), a `compute` whose `run` copies "input" to
    "output" verbatim returns exactly the uploaded image: upload via
    `set_input` followed by download via `get_output` is the identity on the
    image bytes, and the returned image has dimensions `(w, h)`. -/
theorem c8_round_trip (s : CScope) (w h : Nat) (din dout bytes : List Nat)
    (h1 : lookupB s.buffers "input" = some (.dynImage din))
    (h2 : lookupB s.buffers "output" = some (.dynImage dout))
    (h3 : din.length = w * h * 3) (h4 : dout.length = w * h * 3)
    (h6 : bytes.length = w * h * 3) :
    compute s copyRun w h bytes = .ok (w, h, bytes) := by
  have hio : ("input" : String) ≠ "output" := by decide
  have hbl : bytes.length = din.length := by rw [h6, h3]
  have hinNew : bytes ++ din.drop bytes.length = bytes := by
    rw [hbl, List.drop_length, List.append_nil]
  have hol : bytes.length = dout.length := by rw [h6, h4]
  have houtNew : bytes ++ dout.drop bytes.length = bytes := by
    rw [hol, List.drop_length, List.append_nil]
  have L1 : setInput ⟨s.buffers, (w, h)⟩ bytes =
      .ok ⟨insertB s.buffers "input" (.dynImage bytes), (w, h)⟩ := by
    simp only [setInput, h1]
    rw [if_pos (le_of_eq hbl), hinNew]
  have hin2 : lookupB (insertB s.buffers "input" (.dynImage bytes)) "input" =
      some (.dynImage bytes) := lookupB_insertB_self _ _ _
  have hout2 : lookupB (insertB s.buffers "input" (.dynImage bytes)) "output" =
      some (.dynImage dout) := by
    rw [lookupB_insertB_ne _ _ _ _ hio]
    exact h2
  have L2 : copyRun ⟨insertB s.buffers "input" (.dynImage bytes), (w, h)⟩ =
      .ok ⟨insertB (insertB s.buffers "input" (.dynImage bytes)) "output"
        (.dynImage bytes), (w, h)⟩ := by
    simp only [copyRun, hin2, hout2]
    rw [if_pos (le_of_eq hol), houtNew]
  have hout3 : lookupB (insertB (insertB s.buffers "input" (.dynImage bytes)) "output"
      (.dynImage bytes)) "output" = some (.dynImage bytes) := lookupB_insertB_self _ _ _
  have L3 : getOutput ⟨insertB (insertB s.buffers "input" (.dynImage bytes)) "output"
      (.dynImage bytes), (w, h)⟩ = .ok (w, h, bytes) := by
    simp only [getOutput, hout3]
    rw [if_pos (le_of_eq h6.symm)]
    rw [show bytes.take (w * h * 3) = bytes from by rw [← h6]; exact List.take_length bytes]
  show (setInput ⟨s.buffers, (w, h)⟩ bytes >>= fun s2 =>
    copyRun s2 >>= fun s3 => getOutput s3) = .ok (w, h, bytes)
  rw [L1, bindOk, L2, bindOk]
  exact L3

theorem c8_round_trip_witness :
    lookupB (initScope 1 1).buffers "input" = some (.dynImage (List.replicate 3 0)) ∧
    lookupB (initScope 1 1).buffers "output" = some (.dynImage (List.replicate 3 0)) ∧
    ([9, 8, 7] : List Nat).length = 1 * 1 * 3 ∧
    compute (initScope 1 1) copyRun 1 1 [9, 8, 7] = .ok (1, 1, [9, 8, 7]) :=
  ⟨by rfl, by rfl, by rfl,
    c8_round_trip (initScope 1 1) 1 1 (List.replicate 3 0) (List.replicate 3 0) [9, 8, 7]
      (by rfl) (by rfl) (by rfl) (by rfl) (by rfl)⟩
